import Mathlib

set_option maxRecDepth 40000

/-!
Verification development for the Weather-Prediction-Model repository.

The repository builds lag features from a pandas DataFrame of daily weather
observations (weather_prediction_model.py, prepare_data), trains one scaled
random-forest regressor per tracked attribute (train), predicts the next day
(predict_next_day), persists readings to two CSV logs
(weather_data_analyzer.py, store_current_weather), summarises history
(get_weather_analysis), and exposes the whole thing over Flask routes
(app.py).

The embedding below follows the source.  A pandas DataFrame is modelled
column-major, as pandas itself stores it: a list of (column name, column
data) pairs.  A cell is a rational number, a string, or the missing value
NaN/NaT (Cell.na).  In-place mutation of the frame passed by the caller is
modelled by returning the mutated frame alongside the ordinary result.
Library calls whose numeric internals are outside the embedding
(numpy permutation, the square root inside StandardScaler, the fitted
random forest) are passed in as explicit function parameters and
universally quantified in the theorems; a fitted RandomForestRegressor is
represented by its fit inputs (seed, scaled training features, training
targets), of which the real fitted parameters are a deterministic function.
-/

/-- A pandas cell: a float (modelled as a rational), a string, or NaN. -/
inductive Cell where
  | num (q : ℚ)
  | str (s : String)
  | na
deriving DecidableEq, Repr

/-- Whether a cell is missing (pandas NaN / NaT). -/
def Cell.isna : Cell → Bool
  | .na => true
  | _ => false

/-- Numeric content of a cell; non-numeric cells never reach the numeric
code paths in valid runs, they default to 0 here. -/
def Cell.toQ : Cell → ℚ
  | .num q => q
  | _ => 0

/-- A pandas DataFrame, column-major: column name with column data. -/
structure DataFrame where
  cols : List (String × List Cell)
deriving DecidableEq, Repr

/-- Number of rows: length of the first column (0 for a column-less frame),
matching len(df). -/
def DataFrame.nrows (df : DataFrame) : ℕ :=
  ((df.cols.head?).map (fun p => p.2.length)).getD 0

/-- All columns of the frame have the full row count. -/
def DataFrame.Uniform (df : DataFrame) : Prop :=
  ∀ p ∈ df.cols, p.2.length = df.nrows

instance : DecidablePred DataFrame.Uniform := fun df =>
  List.decidableBAll _ df.cols

/-- Column access df[c] (the source only reads columns it knows exist). -/
def getCol (df : DataFrame) (c : String) : List Cell :=
  (df.cols.lookup c).getD []

/-- Overwrite the data of a named column entry, leaving other entries
untouched. -/
def replacePair {β : Type} (c : String) (v : β) (p : String × β) : String × β :=
  if p.1 == c then (c, v) else p

/-- Column assignment df[c] = vals: overwrite in place if the name exists,
otherwise append a new column, as pandas does. -/
def setCol (df : DataFrame) (c : String) (vals : List Cell) : DataFrame :=
  if (df.cols.lookup c).isSome then
    ⟨df.cols.map (replacePair c vals)⟩
  else
    ⟨df.cols ++ [(c, vals)]⟩

/-- Series.shift(i): i leading NaN cells, the tail of the data dropped,
length preserved. -/
def shiftCol (i : ℕ) (xs : List Cell) : List Cell :=
  (List.replicate i Cell.na ++ xs).take xs.length

/-- Row indices kept by df.dropna(): those where no column holds NaN. -/
def keepList (df : DataFrame) : List ℕ :=
  (List.range df.nrows).filter
    (fun r => df.cols.all (fun p => !(p.2.getD r Cell.na).isna))

/-- df.dropna(): drop every row that has a NaN in any column. -/
def dropna (df : DataFrame) : DataFrame :=
  ⟨df.cols.map (fun p => (p.1, (keepList df).map (fun r => p.2.getD r Cell.na)))⟩

/-- Column projection df[cs]. -/
def selectCols (df : DataFrame) (cs : List String) : DataFrame :=
  ⟨cs.map (fun c => (c, getCol df c))⟩

/-- Row r of a frame, in column order (used for X.iloc access). -/
def DataFrame.rowQ (df : DataFrame) (r : ℕ) : List ℚ :=
  df.cols.map (fun p => (p.2.getD r Cell.na).toQ)

/-- self.feature_columns from WeatherPredictionModel.__init__. -/
def feature_columns : List String :=
  ["temperature", "humidity", "wind_speed", "precipitation", "pressure"]

/-- The (i, col) loop pairs of prepare_data, in source order:
for i in range(1, n_steps + 1): for col in self.feature_columns.
The default n_steps = 7 is the only value the source ever uses. -/
def lagPairs : List (ℕ × String) :=
  ((List.range 7).map (· + 1)).flatMap
    (fun i => feature_columns.map (fun c => (i, c)))

/-- Name of a lag column, f-string col_lag_i from the source. -/
def lagName (p : ℕ × String) : String :=
  p.2 ++ "_lag_" ++ toString p.1

/-- The lag-feature creation loop of prepare_data: in-place column
assignments df[f_col_lag_i] = df[col].shift(i). -/
def addLags (df : DataFrame) : DataFrame :=
  lagPairs.foldl
    (fun acc p => setCol acc (lagName p) (shiftCol p.1 (getCol acc p.2))) df

/-- Python str.endswith, on the character lists of the strings. -/
def strEndsWith (c suf : String) : Bool :=
  suf.data.isSuffixOf c.data

/-- The endswith((lag_1, ..., lag_7)) feature-column filter. -/
def isFeatureCol (c : String) : Bool :=
  ["lag_1", "lag_2", "lag_3", "lag_4", "lag_5", "lag_6", "lag_7"].any
    (fun s => strEndsWith c s)

/-- WeatherPredictionModel.prepare_data.  Returns the mutated caller frame
(the lag columns are added in place), the feature table X and the target
series y.  The local rebinding df = df.dropna() does not reach the caller,
so the mutated frame is the frame with lag columns, before dropna. -/
def prepare_data (df : DataFrame) (target : String) :
    DataFrame × DataFrame × List Cell :=
  let df1 := addLags df
  let df2 := dropna df1
  let featureNames := (df2.cols.map Prod.fst).filter isFeatureCol
  (df1, selectCols df2 featureNames, getCol df2 target)

/-- Small concrete observation frame builder for witnesses: the schema of
weather_data.csv (generate_weather_data.py), date plus the five tracked
attributes, with simple numeric contents. -/
def mkObsFrame (n : ℕ) : DataFrame :=
  ⟨[("date", (List.range n).map (fun i => Cell.num i)),
    ("temperature", (List.range n).map (fun i => Cell.num (10 + i))),
    ("humidity", (List.range n).map (fun i => Cell.num (50 + i))),
    ("wind_speed", (List.range n).map (fun i => Cell.num (3 + i))),
    ("precipitation", (List.range n).map (fun i => Cell.num i)),
    ("pressure", (List.range n).map (fun i => Cell.num (1000 + i)))]⟩

/-! Regressor bank: scaler, random-forest representation, training,
prediction (weather_prediction_model.py). -/

/-- StandardScaler parameters: per-feature mean and scale. -/
structure ScalerParams where
  mean : List ℚ
  scale : List ℚ
deriving DecidableEq, Repr

/-- A fitted RandomForestRegressor, represented by its fit inputs: seed,
scaled training features and training targets.  The real fitted trees are
a deterministic function of exactly these three values, so equality of
this representation models equality of the stored model parameters. -/
structure FittedModel where
  seed : ℕ
  xTrain : List (List ℚ)
  yTrain : List ℚ
deriving DecidableEq, Repr

/-- self.models and self.scalers of WeatherPredictionModel. -/
structure BankState where
  models : List (String × FittedModel)
  scalers : List (String × ScalerParams)
deriving DecidableEq, Repr

/-- Python dict assignment d[k] = v: replace in place or append. -/
def upsert {β : Type} (l : List (String × β)) (k : String) (v : β) :
    List (String × β) :=
  if (l.lookup k).isSome then l.map (replacePair k v) else l ++ [(k, v)]

def qSum (xs : List ℚ) : ℚ := xs.foldl (· + ·) 0

def colVals (rows : List (List ℚ)) (j : ℕ) : List ℚ :=
  rows.map (fun row => row.getD j 0)

/-- StandardScaler().fit on the training rows: per-column mean and
population standard deviation; a zero-variance column gets scale 1 as in
sklearn.  The numeric square root is supplied by the caller, since it
lives outside the rational embedding. -/
def fitScaler (sqrtFn : ℚ → ℚ) (rows : List (List ℚ)) : ScalerParams :=
  let n : ℚ := rows.length
  let w := ((rows.head?).map List.length).getD 0
  ⟨(List.range w).map (fun j => qSum (colVals rows j) / n),
   (List.range w).map (fun j =>
     let m := qSum (colVals rows j) / n
     let v := qSum ((colVals rows j).map (fun x => (x - m) ^ 2)) / n
     if v = 0 then 1 else sqrtFn v)⟩

/-- scaler.transform on one row: (x - mean) / scale componentwise. -/
def ScalerParams.transform (sc : ScalerParams) (xs : List ℚ) : List ℚ :=
  List.zipWith (fun x ms => (x - ms.1) / ms.2) xs (sc.mean.zip sc.scale)

/-- random_state=42 passed to train_test_split in train. -/
def splitRandomState : Option ℕ := some 42

/-- random_state=42 passed to RandomForestRegressor in train. -/
def rfRandomState : Option ℕ := some 42

/-- sklearn test-partition size for test_size=0.2: ceil(n / 5). -/
def testCount (n : ℕ) : ℕ := (n + 4) / 5

/-- One iteration per tracked attribute of WeatherPredictionModel.train,
threading the caller frame (mutated in place by prepare_data) and ending
at the first raised exception: train_test_split raises ValueError when a
partition would be empty.  permFn models the seeded numpy permutation of
train_test_split; ambient models the global RNG state that would be
consulted if random_state were None.  Printed metrics and the saved plot
are I/O only and carry no state. -/
def trainLoop (permFn : ℕ → ℕ → List ℕ) (sqrtFn : ℚ → ℚ) (ambient : ℕ) :
    List String → DataFrame → BankState → DataFrame × Except String BankState
  | [], df, st => (df, Except.ok st)
  | t :: ts, df, st =>
    let r := prepare_data df t
    let X := r.2.1
    let y := r.2.2
    let n := X.nrows
    let nTest := testCount n
    let nTrain := n - nTest
    if nTrain = 0 ∨ nTest = 0 then
      (r.1, Except.error "ValueError: the resulting train set will be empty")
    else
      let idx := permFn (splitRandomState.getD ambient) n
      let trainIdx := idx.drop nTest
      let xTrain := trainIdx.map (fun i => X.rowQ i)
      let yTrain := trainIdx.map (fun i => (y.getD i Cell.na).toQ)
      let scaler := fitScaler sqrtFn xTrain
      let model : FittedModel :=
        ⟨rfRandomState.getD ambient, xTrain.map scaler.transform, yTrain⟩
      trainLoop permFn sqrtFn ambient ts r.1
        ⟨upsert st.models t model, upsert st.scalers t scaler⟩

/-- WeatherPredictionModel.train, from a given stored-model state (empty
in the source flow, where train is called once on a fresh instance). -/
def train (permFn : ℕ → ℕ → List ℕ) (sqrtFn : ℚ → ℚ) (ambient : ℕ)
    (st : BankState) (df : DataFrame) : DataFrame × Except String BankState :=
  trainLoop permFn sqrtFn ambient feature_columns df st

/-- Round half to even, as Python round does on an exact value. -/
def roundHalfEven (q : ℚ) : ℤ :=
  if q - ⌊q⌋ < 1 / 2 then ⌊q⌋
  else if 1 / 2 < q - ⌊q⌋ then ⌊q⌋ + 1
  else if ⌊q⌋ % 2 = 0 then ⌊q⌋ else ⌊q⌋ + 1

/-- Python round(x, d). -/
def pyRound (d : ℕ) (q : ℚ) : ℚ :=
  (roundHalfEven (q * 10 ^ d) : ℚ) / 10 ^ d

/-- One iteration per tracked attribute of predict_next_day: skip the
attribute when no complete feature row exists; otherwise read the last
feature row, look up the stored scaler and then the stored model (a
missing key raises KeyError), predict on the scaled row and round to two
decimal places.  rfPredict models the fitted forest prediction. -/
def predictLoop (rfPredict : FittedModel → List ℚ → ℚ) (st : BankState) :
    List String → DataFrame → List (String × ℚ)
      → DataFrame × Except String (List (String × ℚ))
  | [], df, acc => (df, Except.ok acc)
  | t :: ts, df, acc =>
    let r := prepare_data df t
    let X := r.2.1
    if 0 < X.nrows then
      match st.scalers.lookup t with
      | none => (r.1, Except.error ("KeyError: " ++ t))
      | some sc =>
        match st.models.lookup t with
        | none => (r.1, Except.error ("KeyError: " ++ t))
        | some m =>
          let pred := rfPredict m (sc.transform (X.rowQ (X.nrows - 1)))
          predictLoop rfPredict st ts r.1 (acc ++ [(t, pyRound 2 pred)])
    else predictLoop rfPredict st ts r.1 acc

/-- WeatherPredictionModel.predict_next_day. -/
def predict_next_day (st : BankState) (rfPredict : FittedModel → List ℚ → ℚ)
    (df : DataFrame) : DataFrame × Except String (List (String × ℚ)) :=
  predictLoop rfPredict st feature_columns df []

/-! The /api/predict route of app.py. -/

/-- A JSON response of the predict route: an error body with its HTTP
status, or a success body with the predictions mapping. -/
inductive ApiResponse where
  | fail (message : String) (status : ℕ)
  | ok (predictions : List (String × ℚ))
deriving DecidableEq, Repr

/-- The /api/predict handler: the module-global model starts as None and
is only set by the initialization route, so the uninitialized state is
modelled by none. -/
def predictRoute (model : Option BankState)
    (rfPredict : FittedModel → List ℚ → ℚ) (df : DataFrame) : ApiResponse :=
  match model with
  | none =>
    ApiResponse.fail "Model not initialized. Please call /api/initialize first" 400
  | some st =>
    match (predict_next_day st rfPredict df).2 with
    | Except.error e => ApiResponse.fail e 500
    | Except.ok preds => ApiResponse.ok preds

/-! Historical store (weather_data_analyzer.py). -/

/-- One row of data/historical_weather.csv as written by
store_current_weather. -/
structure HistRow where
  date : ℤ
  city : String
  temperature : ℚ
  humidity : ℚ
  wind_speed : ℚ
  pressure : ℚ
  description : String
deriving DecidableEq, Repr

/-- One row of data/current_weather.csv. -/
structure CurRow where
  timestamp : ℤ
  city : String
  temperature : ℚ
  feels_like : ℚ
  humidity : ℚ
  pressure : ℚ
  wind_speed : ℚ
  description : String
  icon : String
deriving DecidableEq, Repr

/-- The incoming weather_data dict, with every key the source reads. -/
structure WeatherPayload where
  city : String
  temperature : ℚ
  feels_like : ℚ
  humidity : ℚ
  pressure : ℚ
  wind_speed : ℚ
  description : String
  icon : String
deriving DecidableEq, Repr

/-- The row appended to the current-weather log (timestamp from
datetime.now()). -/
def curRowOf (nowTs : ℤ) (w : WeatherPayload) : CurRow :=
  ⟨nowTs, w.city, w.temperature, w.feels_like, w.humidity, w.pressure,
    w.wind_speed, w.description, w.icon⟩

/-- The row appended to the historical log (calendar day from
datetime.now()). -/
def histRowOf (nowDay : ℤ) (w : WeatherPayload) : HistRow :=
  ⟨nowDay, w.city, w.temperature, w.humidity, w.wind_speed, w.pressure,
    w.description⟩

/-- WeatherDataAnalyzer.store_current_weather: append one row to each CSV
log and report success.  The wall clock (timestamp and calendar day of
datetime.now()) is passed in. -/
def store_current_weather (cur : List CurRow) (hist : List HistRow)
    (nowTs nowDay : ℤ) (w : WeatherPayload) :
    List CurRow × List HistRow × Bool :=
  (cur ++ [curRowOf nowTs w], hist ++ [histRowOf nowDay w], true)

def qMinList (xs : List ℚ) : ℚ :=
  match xs with
  | [] => 0
  | x :: t => t.foldl min x

def qMaxList (xs : List ℚ) : ℚ :=
  match xs with
  | [] => 0
  | x :: t => t.foldl max x

def intMinList (xs : List ℤ) : ℤ :=
  match xs with
  | [] => 0
  | x :: t => t.foldl min x

def intMaxList (xs : List ℤ) : ℤ :=
  match xs with
  | [] => 0
  | x :: t => t.foldl max x

/-- Per-attribute statistics of the analysis.  mean, min and max of the
nonempty filtered column are always numbers; std uses pandas ddof = 1 and
is NaN (modelled by none) when only one row is in range. -/
structure AttrStats where
  mean : ℚ
  min : ℚ
  max : ℚ
  std : Option ℚ
deriving DecidableEq, Repr

/-- pandas Series.std (ddof = 1): NaN for a single sample, otherwise the
square root of the unbiased variance (sqrtFn supplies the root). -/
def seriesStd (sqrtFn : ℚ → ℚ) (xs : List ℚ) : Option ℚ :=
  if xs.length ≤ 1 then none
  else
    let n : ℚ := xs.length
    let m := qSum xs / n
    some (sqrtFn (qSum (xs.map (fun x => (x - m) ^ 2)) / (n - 1)))

/-- The per-attribute block of get_weather_analysis: statistics rounded to
one decimal place (round of NaN stays NaN). -/
def attrStatsOf (sqrtFn : ℚ → ℚ) (xs : List ℚ) : AttrStats :=
  ⟨pyRound 1 (qSum xs / xs.length), pyRound 1 (qMinList xs),
    pyRound 1 (qMaxList xs), (seriesStd sqrtFn xs).map (pyRound 1)⟩

/-- df.description value_counts, serialised to a name-to-count table. -/
def valueCounts (xs : List String) : List (String × ℕ) :=
  xs.dedup.map (fun s => (s, xs.count s))

/-- The analysis payload of get_weather_analysis. -/
structure Analysis where
  temperature : AttrStats
  humidity : AttrStats
  wind_speed : AttrStats
  pressure : AttrStats
  weather_conditions : List (String × ℕ)
  data_points : ℕ
  dateStart : ℤ
  dateEnd : ℤ
deriving DecidableEq, Repr

/-- The structured result of get_weather_analysis: an error body or a
success body with the analysis data. -/
inductive AnalysisResult where
  | fail (message : String)
  | success (data : Analysis)
deriving DecidableEq, Repr

/-- The city/date filtering of get_weather_analysis: an empty city string
is falsy in Python and applies no filter; the date filter keeps rows from
now - days on (the source sets no upper bound). -/
def filteredHist (rows : List HistRow) (city : Option String)
    (days now : ℤ) : List HistRow :=
  let r1 := match city with
    | some c => if c = "" then rows else rows.filter (fun r => r.city = c)
    | none => rows
  r1.filter (fun r => now - days ≤ r.date)

/-- WeatherDataAnalyzer.get_weather_analysis: an explicit error when the
filtered range is empty, otherwise the statistics block.  Writing the
JSON cache file is I/O only and carries no state. -/
def get_weather_analysis (sqrtFn : ℚ → ℚ) (rows : List HistRow)
    (city : Option String) (days now : ℤ) : AnalysisResult :=
  let f := filteredHist rows city days now
  if f.length = 0 then
    AnalysisResult.fail "No data available for the specified period"
  else
    AnalysisResult.success
      ⟨attrStatsOf sqrtFn (f.map (fun r => r.temperature)),
       attrStatsOf sqrtFn (f.map (fun r => r.humidity)),
       attrStatsOf sqrtFn (f.map (fun r => r.wind_speed)),
       attrStatsOf sqrtFn (f.map (fun r => r.pressure)),
       valueCounts (f.map (fun r => r.description)),
       f.length,
       intMinList (f.map (fun r => r.date)),
       intMaxList (f.map (fun r => r.date))⟩

/-- No cell of the frame is missing. -/
def Complete (df : DataFrame) : Prop :=
  ∀ p ∈ df.cols, ∀ x ∈ p.2, x.isna = false

instance : DecidablePred Complete := fun df =>
  List.decidableBAll _ df.cols

/-- Hypotheses describing a well-formed observation table: uniform column
lengths, no missing cells, the five tracked attributes present, and no
column already named like a lag feature. -/
structure ObsTable (df : DataFrame) : Prop where
  uniform : df.Uniform
  complete : Complete df
  tracked : ∀ c ∈ feature_columns, (df.cols.lookup c).isSome = true
  nolag : ∀ c ∈ df.cols.map Prod.fst, isFeatureCol c = false

/-- A sample stored observation row for concrete counterexamples. -/
def histSample : HistRow := ⟨5, "Hyderabad", 30, 50, 10, 1010, "clear sky"⟩

/-- Recognises a success result whose temperature standard deviation is
NaN (modelled by none). -/
def successWithNaNStd : AnalysisResult → Bool
  | AnalysisResult.success a => a.temperature.std.isNone
  | _ => false

/-- An 8-row observation table with an optional city column whose last
entry is missing; every tracked attribute column is complete. -/
def dfCityGap : DataFrame :=
  ⟨[("date", (List.range 8).map (fun i => Cell.num i)),
    ("city", (List.range 7).map (fun _ => Cell.str "Hyderabad") ++ [Cell.na]),
    ("temperature", (List.range 8).map (fun i => Cell.num (10 + i))),
    ("humidity", (List.range 8).map (fun i => Cell.num (50 + i))),
    ("wind_speed", (List.range 8).map (fun i => Cell.num (3 + i))),
    ("precipitation", (List.range 8).map (fun i => Cell.num i)),
    ("pressure", (List.range 8).map (fun i => Cell.num (1000 + i)))]⟩

/-- A bank holding a (trivial) scaler and model for every attribute, for
the C5 witness. -/
def stubBank : BankState :=
  ⟨feature_columns.map (fun t => (t, ⟨0, [], []⟩)),
   feature_columns.map (fun t => (t, ⟨[], []⟩))⟩

/-! Association-list lemmas for the column list. -/

theorem lookup_append {β : Type} (l₁ l₂ : List (String × β)) (c : String) :
    (l₁ ++ l₂).lookup c
      = match l₁.lookup c with
        | some v => some v
        | none => l₂.lookup c := by
  induction l₁ with
  | nil => simp
  | cons p t ih =>
    obtain ⟨k, b⟩ := p
    simp only [List.cons_append, List.lookup]
    cases hck : (c == k) with
    | true => simp
    | false => simpa using ih

theorem lookup_append_of_none {β : Type} (l₁ l₂ : List (String × β)) (c : String)
    (h : l₁.lookup c = none) : (l₁ ++ l₂).lookup c = l₂.lookup c := by
  rw [lookup_append, h]

theorem lookup_append_of_some {β : Type} (l₁ l₂ : List (String × β)) (c : String)
    {v : β} (h : l₁.lookup c = some v) : (l₁ ++ l₂).lookup c = some v := by
  rw [lookup_append, h]

theorem lookup_singleton_ne {β : Type} {c k : String} (b : β) (h : c ≠ k) :
    List.lookup c [(k, b)] = none := by
  simp [List.lookup, beq_eq_false_iff_ne.mpr h]

theorem lookup_none_no_key {β : Type} {l : List (String × β)} {c : String}
    (h : l.lookup c = none) : ∀ p ∈ l, p.1 ≠ c := by
  induction l with
  | nil => simp
  | cons p t ih =>
    intro q hq
    obtain ⟨k, b⟩ := p
    simp only [List.lookup] at h
    cases hck : (c == k) with
    | true => simp [hck] at h
    | false =>
      simp only [hck] at h
      rcases List.mem_cons.mp hq with rfl | hmem
      · exact fun hc => (beq_eq_false_iff_ne.mp hck) hc.symm
      · exact ih h q hmem

theorem replacePair_eq {β : Type} (c : String) (v : β) (b : β) :
    replacePair c v (c, b) = (c, v) := by simp [replacePair]

theorem replacePair_ne {β : Type} {c k : String} (v : β) (b : β) (h : k ≠ c) :
    replacePair c v (k, b) = (k, b) := by
  simp [replacePair, beq_eq_false_iff_ne.mpr h]

theorem lookup_replace {β : Type} (l : List (String × β)) (c : String) (v : β) :
    (l.map (replacePair c v)).lookup c = (l.lookup c).map (fun _ => v) := by
  induction l with
  | nil => simp
  | cons p t ih =>
    obtain ⟨k, b⟩ := p
    by_cases hkc : k = c
    · subst hkc
      rw [List.map_cons, replacePair_eq]
      simp [List.lookup, ih]
    · rw [List.map_cons, replacePair_ne _ _ hkc]
      simp only [List.lookup]
      cases hck : (c == k) with
      | true => exact absurd (beq_iff_eq.mp hck).symm hkc
      | false => exact ih

theorem lookup_replace_ne {β : Type} (l : List (String × β)) {c c' : String}
    (v : β) (h : c ≠ c') :
    (l.map (replacePair c' v)).lookup c = l.lookup c := by
  induction l with
  | nil => simp
  | cons p t ih =>
    obtain ⟨k, b⟩ := p
    by_cases hp : k = c'
    · subst hp
      rw [List.map_cons, replacePair_eq]
      simp only [List.lookup, beq_eq_false_iff_ne.mpr h]
      exact ih
    · rw [List.map_cons, replacePair_ne _ _ hp]
      simp only [List.lookup]
      cases hck : (c == k) with
      | true => rfl
      | false => exact ih

/-! Structure of setCol and of the lag-creation fold. -/

theorem cols_setCol_fresh (df : DataFrame) (c : String) (vals : List Cell)
    (h : df.cols.lookup c = none) :
    setCol df c vals = ⟨df.cols ++ [(c, vals)]⟩ := by
  simp [setCol, h]

theorem getCol_setCol_ne (df : DataFrame) {c c' : String} (vals : List Cell)
    (h : c ≠ c') : getCol (setCol df c' vals) c = getCol df c := by
  unfold getCol setCol
  cases hs : (List.lookup c' df.cols).isSome with
  | true =>
    simp only [hs, if_true]
    rw [lookup_replace_ne _ _ h]
  | false =>
    simp only [hs, Bool.false_eq_true, if_false]
    cases hc : List.lookup c df.cols with
    | some v => rw [lookup_append_of_some _ _ _ hc]
    | none => rw [lookup_append_of_none _ _ _ hc, lookup_singleton_ne _ h]

theorem addLags_foldl_struct :
    ∀ (ps : List (ℕ × String)) (acc : DataFrame),
    (∀ p ∈ ps, acc.cols.lookup (lagName p) = none) →
    (∀ p ∈ ps, ∀ q ∈ ps, p.2 ≠ lagName q) →
    (ps.map lagName).Nodup →
    ps.foldl (fun a p => setCol a (lagName p) (shiftCol p.1 (getCol a p.2))) acc
      = ⟨acc.cols ++ ps.map (fun p => (lagName p, shiftCol p.1 (getCol acc p.2)))⟩
  | [], acc, _, _, _ => by simp
  | p :: ps, acc, h1, h2, h3 => by
    simp only [List.foldl_cons]
    rw [List.map_cons, List.nodup_cons] at h3
    have hnotin : lagName p ∉ ps.map lagName := h3.1
    have hfresh : acc.cols.lookup (lagName p) = none := h1 p (List.mem_cons_self p ps)
    set acc' : DataFrame := ⟨acc.cols ++ [(lagName p, shiftCol p.1 (getCol acc p.2))]⟩
      with hacc'
    have hstep : setCol acc (lagName p) (shiftCol p.1 (getCol acc p.2)) = acc' :=
      cols_setCol_fresh acc _ _ hfresh
    rw [hstep]
    have h1' : ∀ q ∈ ps, acc'.cols.lookup (lagName q) = none := by
      intro q hq
      have hbase : acc.cols.lookup (lagName q) = none :=
        h1 q (List.mem_cons_of_mem p hq)
      have hne : lagName q ≠ lagName p := by
        intro he; exact hnotin (he ▸ List.mem_map_of_mem lagName hq)
      rw [hacc']
      show List.lookup (lagName q) (acc.cols ++ [(lagName p, _)]) = none
      rw [lookup_append_of_none _ _ _ hbase, lookup_singleton_ne _ hne]
    have h2' : ∀ q ∈ ps, ∀ r ∈ ps, q.2 ≠ lagName r := fun q hq r hr =>
      h2 q (List.mem_cons_of_mem p hq) r (List.mem_cons_of_mem p hr)
    have ih := addLags_foldl_struct ps acc' h1' h2' h3.2
    have hcolstable : ∀ q ∈ ps,
        getCol acc' q.2 = getCol acc q.2 := by
      intro q hq
      rw [← hstep]
      exact getCol_setCol_ne acc _ (h2 q (List.mem_cons_of_mem p hq) p
        (List.mem_cons_self p ps))
    rw [ih]
    congr 1
    rw [hacc']
    simp only [List.append_assoc, List.singleton_append, List.map_cons]
    congr 2
    exact List.map_congr_left (fun q hq => by rw [hcolstable q hq])

/-- Per-pair side conditions of the lag fold, discharged by computation. -/
theorem lagPairs_base_ne : ∀ p ∈ lagPairs, ∀ q ∈ lagPairs, p.2 ≠ lagName q := by
  decide

/-- The 35 lag-column names are pairwise distinct. -/
theorem lagPairs_names_nodup : (lagPairs.map lagName).Nodup := by decide

/-- A frame whose columns do not already carry lag names (any observation
table) gains exactly the 35 lag columns, appended in loop order, with the
shifted base-column data; the original columns are untouched. -/
theorem addLags_struct (df : DataFrame)
    (hfresh : ∀ p ∈ lagPairs, df.cols.lookup (lagName p) = none) :
    addLags df
      = ⟨df.cols ++ lagPairs.map (fun p => (lagName p, shiftCol p.1 (getCol df p.2)))⟩ :=
  addLags_foldl_struct lagPairs df hfresh lagPairs_base_ne lagPairs_names_nodup

/-! Shifted-column access. -/

theorem shiftCol_length (i : ℕ) (xs : List Cell) :
    (shiftCol i xs).length = xs.length := by
  simp [shiftCol]

theorem shiftCol_getD (i : ℕ) (xs : List Cell) {r : ℕ} (hr : r < xs.length) :
    (shiftCol i xs).getD r Cell.na
      = if r < i then Cell.na else xs.getD (r - i) Cell.na := by
  unfold shiftCol
  rw [List.getD_eq_getElem?_getD, List.getElem?_take, if_pos hr,
    List.getElem?_append]
  by_cases hi : r < i
  · rw [if_pos (by simpa using hi), List.getElem?_replicate, if_pos hi]
    simp [hi]
  · rw [if_neg (by simpa using hi), List.length_replicate, if_neg hi,
      List.getD_eq_getElem?_getD]

theorem shiftCol_getD_lt (i : ℕ) (xs : List Cell) {r : ℕ} (hr : r < i) :
    (shiftCol i xs).getD r Cell.na = Cell.na := by
  by_cases h : r < xs.length
  · rw [shiftCol_getD _ _ h, if_pos hr]
  · exact List.getD_eq_default _ _ (by rw [shiftCol_length]; omega)

/-- A successful lookup yields a member pair. -/
theorem lookup_mem {β : Type} {l : List (String × β)} {c : String} {v : β}
    (h : l.lookup c = some v) : (c, v) ∈ l := by
  induction l with
  | nil => simp at h
  | cons p t ih =>
    obtain ⟨k, b⟩ := p
    simp only [List.lookup] at h
    cases hck : (c == k) with
    | true =>
      rw [hck] at h
      obtain rfl : b = v := by simpa using h
      obtain rfl : c = k := beq_iff_eq.mp hck
      exact List.mem_cons_self _ _
    | false =>
      rw [hck] at h
      exact List.mem_cons_of_mem _ (ih h)

/-! Facts about the concrete 35-pair lag list, by computation. -/

theorem lagPairs_snd_mem : ∀ p ∈ lagPairs, p.2 ∈ feature_columns := by decide

theorem lagPairs_fst_le : ∀ p ∈ lagPairs, p.1 ≤ 7 := by decide

theorem seven_temp_mem : ((7, "temperature") : ℕ × String) ∈ lagPairs := by decide

theorem nrows_append_left (l₁ l₂ : List (String × List Cell)) (h : l₁ ≠ []) :
    DataFrame.nrows ⟨l₁ ++ l₂⟩ = DataFrame.nrows ⟨l₁⟩ := by
  cases l₁ with
  | nil => exact absurd rfl h
  | cons p t => rfl

/-- The rows that survive dropna after lag creation: exactly the rows from
index 7 on, provided every original cell is present. -/
theorem keepList_addLags (df : DataFrame)
    (hfresh : ∀ p ∈ lagPairs, df.cols.lookup (lagName p) = none)
    (hUF : df.Uniform) (hcomp : Complete df)
    (htracked : ∀ c ∈ feature_columns, (df.cols.lookup c).isSome = true)
    (hne : df.cols ≠ []) :
    keepList (addLags df) = List.range' 7 (df.nrows - 7) := by
  rw [addLags_struct df hfresh]
  have hnA : DataFrame.nrows
      ⟨df.cols ++ lagPairs.map (fun p => (lagName p, shiftCol p.1 (getCol df p.2)))⟩
      = df.nrows := nrows_append_left _ _ hne
  unfold keepList
  rw [hnA]
  have hcond : ∀ r ∈ List.range df.nrows,
      ((df.cols ++ lagPairs.map
          (fun p => (lagName p, shiftCol p.1 (getCol df p.2)))).all
        (fun p => !(p.2.getD r Cell.na).isna)) = decide (7 ≤ r) := by
    intro r hr
    have hrn : r < df.nrows := List.mem_range.mp hr
    rw [List.all_append]
    have hbase : df.cols.all (fun p => !(p.2.getD r Cell.na).isna) = true := by
      rw [List.all_eq_true]
      intro p hp
      have hlen : p.2.length = df.nrows := hUF p hp
      have hmem : p.2.getD r Cell.na ∈ p.2 := by
        rw [List.getD_eq_getElem _ _ (by omega)]
        exact List.getElem_mem _
      show (!(p.2.getD r Cell.na).isna) = true
      rw [hcomp p hp _ hmem]
      rfl
    rw [hbase, Bool.true_and]
    by_cases h7 : 7 ≤ r
    · rw [decide_eq_true h7]
      rw [List.all_eq_true]
      intro x hx
      obtain ⟨p, hp, rfl⟩ := List.mem_map.mp hx
      obtain ⟨v, hv⟩ := Option.isSome_iff_exists.mp (htracked p.2 (lagPairs_snd_mem p hp))
      have hgc : getCol df p.2 = v := by simp [getCol, hv]
      have hvmem : (p.2, v) ∈ df.cols := lookup_mem hv
      have hvlen : v.length = df.nrows := hUF _ hvmem
      have hile : p.1 ≤ 7 := lagPairs_fst_le p hp
      have hrlt : r < (getCol df p.2).length := by rw [hgc, hvlen]; omega
      show (!((shiftCol p.1 (getCol df p.2)).getD r Cell.na).isna) = true
      rw [shiftCol_getD _ _ hrlt, if_neg (by omega)]
      have hmem2 : (getCol df p.2).getD (r - p.1) Cell.na ∈ v := by
        rw [hgc, List.getD_eq_getElem _ _ (by omega)]
        exact List.getElem_mem _
      rw [hcomp _ hvmem _ hmem2]
      rfl
    · rw [decide_eq_false h7]
      rw [List.all_eq_false]
      refine ⟨(lagName (7, "temperature"), shiftCol 7 (getCol df "temperature")),
        List.mem_map.mpr ⟨(7, "temperature"), seven_temp_mem, rfl⟩, ?_⟩
      show ¬(!((shiftCol 7 (getCol df "temperature")).getD r Cell.na).isna) = true
      rw [shiftCol_getD_lt 7 _ (by omega)]
      simp [Cell.isna]
  rw [List.filter_congr hcond]
  by_cases hn7 : 7 ≤ df.nrows
  · have hsum : (df.nrows - 7) + 7 = df.nrows := by omega
    have hsplit : List.range df.nrows = List.range' 0 7 ++ List.range' 7 (df.nrows - 7) := by
      have h := List.range'_append 0 7 (df.nrows - 7) 1
      simp only [Nat.zero_add, Nat.one_mul] at h
      rw [hsum] at h
      rw [List.range_eq_range']
      exact h.symm
    rw [hsplit, List.filter_append]
    have h1 : (List.range' 0 7).filter (fun r => decide (7 ≤ r)) = [] := by
      rw [List.filter_eq_nil_iff]
      intro a ha
      obtain ⟨i, hi, rfl⟩ := List.mem_range'.mp ha
      simp
      omega
    have h2 : (List.range' 7 (df.nrows - 7)).filter (fun r => decide (7 ≤ r))
        = List.range' 7 (df.nrows - 7) := by
      rw [List.filter_eq_self]
      intro a ha
      obtain ⟨i, hi, rfl⟩ := List.mem_range'.mp ha
      simp
    rw [h1, h2, List.nil_append]
  · have h0 : df.nrows - 7 = 0 := by omega
    rw [h0, List.range'_zero]
    rw [List.filter_eq_nil_iff]
    intro a ha
    have := List.mem_range.mp ha
    simp
    omega

theorem lookup_map_snd {β γ : Type} (l : List (String × β)) (g : β → γ)
    (c : String) :
    (l.map (fun p => (p.1, g p.2))).lookup c = (l.lookup c).map g := by
  induction l with
  | nil => simp
  | cons p t ih =>
    obtain ⟨k, b⟩ := p
    rw [List.map_cons]
    show List.lookup c ((k, g b) :: t.map (fun p => (p.1, g p.2)))
      = (List.lookup c ((k, b) :: t)).map g
    simp only [List.lookup]
    cases hck : (c == k) with
    | true => rfl
    | false => exact ih

theorem lookup_entries {β : Type} :
    ∀ (ps : List (ℕ × String)) (f : ℕ × String → β),
    (ps.map lagName).Nodup → ∀ {p}, p ∈ ps →
    (ps.map (fun q => (lagName q, f q))).lookup (lagName p) = some (f p)
  | [], _, _, _, hp => absurd hp (List.not_mem_nil _)
  | q :: t, f, hnd, p, hp => by
    rw [List.map_cons, List.nodup_cons] at hnd
    rw [List.map_cons]
    rcases List.mem_cons.mp hp with rfl | hmem
    · show List.lookup (lagName p) ((lagName p, f p) :: _) = some (f p)
      simp [List.lookup]
    · have hne : lagName p ≠ lagName q := by
        intro he
        exact hnd.1 (he ▸ List.mem_map_of_mem lagName hmem)
      show List.lookup (lagName p) ((lagName q, f q) :: _) = some (f p)
      simp only [List.lookup, beq_eq_false_iff_ne.mpr hne]
      exact lookup_entries t f hnd.2 hmem

theorem lagNames_featureCol : ∀ p ∈ lagPairs, isFeatureCol (lagName p) = true := by
  decide

theorem getCol_dropna (D : DataFrame) (c : String) :
    getCol (dropna D) c
      = ((D.cols.lookup c).map
          (fun d => (keepList D).map (fun r => d.getD r Cell.na))).getD [] := by
  unfold getCol dropna
  dsimp only
  exact congrArg (fun o => Option.getD o [])
    (lookup_map_snd D.cols
      (fun d => (keepList D).map (fun r => d.getD r Cell.na)) c)

theorem map_fst_dropna (D : DataFrame) :
    (dropna D).cols.map Prod.fst = D.cols.map Prod.fst := by
  simp [dropna, List.map_map, Function.comp]

theorem ObsTable.nonempty {df : DataFrame} (h : ObsTable df) : df.cols ≠ [] := by
  intro hcols
  have := h.tracked "temperature" (by decide)
  rw [hcols] at this
  simp [List.lookup] at this

theorem ObsTable.fresh {df : DataFrame} (h : ObsTable df) :
    ∀ p ∈ lagPairs, df.cols.lookup (lagName p) = none := by
  intro p hp
  cases hl : df.cols.lookup (lagName p) with
  | none => rfl
  | some v =>
    have hmem := lookup_mem hl
    have hfalse : isFeatureCol (lagName p) = false :=
      h.nolag (lagName p) (List.mem_map.mpr ⟨_, hmem, rfl⟩)
    have htrue : isFeatureCol (lagName p) = true := lagNames_featureCol p hp
    rw [htrue] at hfalse
    cases hfalse

/-- Full characterization of the feature table built by prepare_data on a
well-formed observation table: one column per (lag step, attribute) pair
and one row for each source row from index 7 on, holding the attribute
value lag steps earlier. -/
theorem prepare_data_X (df : DataFrame) (h : ObsTable df) (target : String) :
    (prepare_data df target).2.1
      = ⟨lagPairs.map (fun p => (lagName p,
          (List.range' 7 (df.nrows - 7)).map
            (fun r => (getCol df p.2).getD (r - p.1) Cell.na)))⟩ := by
  have hfresh := h.fresh
  have hne := h.nonempty
  have hA := addLags_struct df hfresh
  have hkeep := keepList_addLags df hfresh h.uniform h.complete h.tracked hne
  have hunfold : (prepare_data df target).2.1
      = selectCols (dropna (addLags df))
          (((dropna (addLags df)).cols.map Prod.fst).filter isFeatureCol) := by
    simp only [prepare_data]
  rw [hunfold]
  have hnames : ((dropna (addLags df)).cols.map Prod.fst).filter isFeatureCol
      = lagPairs.map lagName := by
    rw [map_fst_dropna, hA]
    show ((df.cols ++ lagPairs.map
        (fun p => (lagName p, shiftCol p.1 (getCol df p.2)))).map Prod.fst).filter
        isFeatureCol = _
    rw [List.map_append, List.filter_append]
    have h1 : (df.cols.map Prod.fst).filter isFeatureCol = [] := by
      rw [List.filter_eq_nil_iff]
      intro c hc
      rw [h.nolag c hc]
      simp
    have h2 : ((lagPairs.map
        (fun p => (lagName p, shiftCol p.1 (getCol df p.2)))).map Prod.fst).filter
        isFeatureCol = lagPairs.map lagName := by
      have hm : (lagPairs.map
          (fun p => (lagName p, shiftCol p.1 (getCol df p.2)))).map Prod.fst
          = lagPairs.map lagName := by
        rw [List.map_map]
        rfl
      rw [hm, List.filter_eq_self]
      intro c hc
      obtain ⟨p, hp, rfl⟩ := List.mem_map.mp hc
      exact lagNames_featureCol p hp
    rw [h1, h2, List.nil_append]
  rw [hnames]
  show (⟨(lagPairs.map lagName).map
      (fun c => (c, getCol (dropna (addLags df)) c))⟩ : DataFrame) = _
  rw [List.map_map]
  refine congrArg DataFrame.mk ?_
  apply List.map_congr_left
  intro p hp
  show (lagName p, getCol (dropna (addLags df)) (lagName p)) = _
  have hget : getCol (dropna (addLags df)) (lagName p)
      = (List.range' 7 (df.nrows - 7)).map
          (fun r => (shiftCol p.1 (getCol df p.2)).getD r Cell.na) := by
    rw [getCol_dropna]
    have hlk : (addLags df).cols.lookup (lagName p)
        = some (shiftCol p.1 (getCol df p.2)) := by
      rw [hA]
      show List.lookup (lagName p) (df.cols ++ lagPairs.map
        (fun q => (lagName q, shiftCol q.1 (getCol df q.2)))) = _
      rw [lookup_append_of_none _ _ _ (hfresh p hp)]
      exact lookup_entries lagPairs _ lagPairs_names_nodup hp
    rw [hlk, hkeep]
    rfl
  rw [hget]
  refine congrArg (Prod.mk (lagName p)) ?_
  apply List.map_congr_left
  intro r hr
  obtain ⟨i, hi, rfl⟩ := List.mem_range'.mp hr
  obtain ⟨v, hv⟩ := Option.isSome_iff_exists.mp (h.tracked p.2 (lagPairs_snd_mem p hp))
  have hgc : getCol df p.2 = v := by simp [getCol, hv]
  have hvlen : v.length = df.nrows := h.uniform _ (lookup_mem hv)
  have hile : p.1 ≤ 7 := lagPairs_fst_le p hp
  have hrlt : 7 + 1 * i < (getCol df p.2).length := by rw [hgc, hvlen]; omega
  rw [shiftCol_getD _ _ hrlt, if_neg (by omega)]

/-! Idempotence of the lag-creation pass: running prepare_data a second
time on the already-mutated frame overwrites every lag column with the
same data. -/

theorem lookup_entries_ne {β : Type} :
    ∀ (ps : List (ℕ × String)) (f : ℕ × String → β) {c : String},
    (∀ q ∈ ps, c ≠ lagName q) →
    (ps.map (fun q => (lagName q, f q))).lookup c = none
  | [], _, _, _ => rfl
  | q :: t, f, c, hc => by
    rw [List.map_cons]
    show List.lookup c ((lagName q, f q) :: _) = none
    simp only [List.lookup,
      beq_eq_false_iff_ne.mpr (hc q (List.mem_cons_self q t))]
    exact lookup_entries_ne t f (fun r hr => hc r (List.mem_cons_of_mem q hr))

theorem getCol_addLags_base (df : DataFrame)
    (hfresh : ∀ p ∈ lagPairs, df.cols.lookup (lagName p) = none)
    {c : String} (hc : ∀ q ∈ lagPairs, c ≠ lagName q) :
    getCol (addLags df) c = getCol df c := by
  rw [addLags_struct df hfresh]
  show ((df.cols ++ lagPairs.map
      (fun p => (lagName p, shiftCol p.1 (getCol df p.2)))).lookup c).getD []
    = getCol df c
  cases hl : List.lookup c df.cols with
  | some v =>
    rw [lookup_append_of_some _ _ _ hl]
    unfold getCol
    rw [hl]
  | none =>
    rw [lookup_append_of_none _ _ _ hl, lookup_entries_ne lagPairs _ hc]
    unfold getCol
    rw [hl]

theorem setCol_id (df : DataFrame) (c : String) (vals : List Cell)
    (hsome : (df.cols.lookup c).isSome = true)
    (hall : ∀ pr ∈ df.cols, pr.1 = c → pr = (c, vals)) :
    setCol df c vals = df := by
  unfold setCol
  rw [if_pos hsome]
  refine congrArg DataFrame.mk ?_
  have hids : ∀ pr ∈ df.cols, replacePair c vals pr = pr := by
    intro pr hpr
    obtain ⟨k, b⟩ := pr
    by_cases hk : k = c
    · have := hall (k, b) hpr hk
      rw [this, replacePair_eq]
    · exact replacePair_ne _ _ hk
  rw [List.map_congr_left hids]
  simp

theorem foldl_eq_self {α β : Type} (f : α → β → α) (a : α) (l : List β)
    (h : ∀ b ∈ l, f a b = a) : l.foldl f a = a := by
  induction l with
  | nil => rfl
  | cons b t ih =>
    rw [List.foldl_cons, h b (List.mem_cons_self b t)]
    exact ih (fun x hx => h x (List.mem_cons_of_mem b hx))

theorem lookup_addLags_lag (df : DataFrame)
    (hfresh : ∀ p ∈ lagPairs, df.cols.lookup (lagName p) = none)
    {p : ℕ × String} (hp : p ∈ lagPairs) :
    (addLags df).cols.lookup (lagName p)
      = some (shiftCol p.1 (getCol df p.2)) := by
  rw [addLags_struct df hfresh]
  show List.lookup (lagName p) (df.cols ++ lagPairs.map
    (fun q => (lagName q, shiftCol q.1 (getCol df q.2)))) = _
  rw [lookup_append_of_none _ _ _ (hfresh p hp)]
  exact lookup_entries lagPairs _ lagPairs_names_nodup hp

theorem addLags_idem (df : DataFrame)
    (hfresh : ∀ p ∈ lagPairs, df.cols.lookup (lagName p) = none) :
    addLags (addLags df) = addLags df := by
  show lagPairs.foldl
    (fun a p => setCol a (lagName p) (shiftCol p.1 (getCol a p.2)))
    (addLags df) = addLags df
  apply foldl_eq_self
  intro p hp
  rw [getCol_addLags_base df hfresh (fun q hq => lagPairs_base_ne p hp q hq)]
  apply setCol_id
  · rw [lookup_addLags_lag df hfresh hp]
    rfl
  · intro pr hpr hpr1
    rw [addLags_struct df hfresh] at hpr
    rcases List.mem_append.mp hpr with hbase | hlag
    · exact absurd hpr1 (lookup_none_no_key (hfresh p hp) pr hbase)
    · obtain ⟨q, hq, rfl⟩ := List.mem_map.mp hlag
      have hqq : lagName q = lagName p := hpr1
      have : q = p :=
        List.inj_on_of_nodup_map lagPairs_names_nodup hq hp hqq
      rw [this]

/-- A second prepare_data call on the mutated frame leaves the frame fixed
and rebuilds the same feature table and target series. -/
theorem prepare_data_addLags (df : DataFrame) (target : String)
    (hfresh : ∀ p ∈ lagPairs, df.cols.lookup (lagName p) = none) :
    prepare_data (addLags df) target
      = (addLags df, (prepare_data df target).2.1, (prepare_data df target).2.2) := by
  have he : ∀ d : DataFrame, prepare_data d target
      = (addLags d, selectCols (dropna (addLags d))
          (((dropna (addLags d)).cols.map Prod.fst).filter isFeatureCol),
        getCol (dropna (addLags d)) target) := by
    intro d
    simp only [prepare_data]
  rw [he (addLags df), he df, addLags_idem df hfresh]

/-! Behaviour on frames with fewer than 8 rows: every row still carries a
missing lag-7 cell, so dropna removes everything. -/

theorem nrows_mk_map {m : ℕ} (ps : List (ℕ × String))
    (f : ℕ × String → String × List Cell) (hne : ps ≠ [])
    (hlen : ∀ p ∈ ps, (f p).2.length = m) :
    DataFrame.nrows ⟨ps.map f⟩ = m := by
  cases ps with
  | nil => exact absurd rfl hne
  | cons p t =>
    show (f p).2.length = m
    exact hlen p (List.mem_cons_self p t)

theorem keepList_addLags_short (df : DataFrame)
    (hfresh : ∀ p ∈ lagPairs, df.cols.lookup (lagName p) = none)
    (hn : df.nrows < 8) :
    keepList (addLags df) = [] := by
  rw [addLags_struct df hfresh]
  unfold keepList
  rw [List.filter_eq_nil_iff]
  intro r hr
  have hrlt := List.mem_range.mp hr
  have hr7 : r < 7 := by
    rcases hcols : df.cols with _ | ⟨p, t⟩
    · exfalso
      have h0 : DataFrame.nrows
          ⟨df.cols ++ lagPairs.map
            (fun p => (lagName p, shiftCol p.1 (getCol df p.2)))⟩ = 0 := by
        rw [hcols, List.nil_append]
        refine nrows_mk_map _ _ (by decide) ?_
        intro p hp
        show (shiftCol p.1 (getCol df p.2)).length = 0
        rw [shiftCol_length]
        show ((df.cols.lookup p.2).getD []).length = 0
        rw [hcols]
        rfl
      rw [h0] at hrlt
      omega
    · have hnr : DataFrame.nrows
          ⟨df.cols ++ lagPairs.map
            (fun p => (lagName p, shiftCol p.1 (getCol df p.2)))⟩ = df.nrows := by
        apply nrows_append_left
        rw [hcols]
        exact List.cons_ne_nil p t
      rw [hnr] at hrlt
      omega
  intro hall
  rw [List.all_eq_true] at hall
  have hmem : (lagName (7, "temperature"),
      shiftCol 7 (getCol df "temperature")) ∈
      df.cols ++ lagPairs.map
        (fun p => (lagName p, shiftCol p.1 (getCol df p.2))) :=
    List.mem_append_right _
      (List.mem_map.mpr ⟨(7, "temperature"), seven_temp_mem, rfl⟩)
  have := hall _ hmem
  rw [shiftCol_getD_lt 7 _ hr7] at this
  simp [Cell.isna] at this

theorem select_dropna_empty (D : DataFrame) (hkeep : keepList D = [])
    (names : List String) (t : String) :
    (selectCols (dropna D) names).nrows = 0 ∧ getCol (dropna D) t = [] := by
  have hg : ∀ c, getCol (dropna D) c = [] := by
    intro c
    rw [getCol_dropna, hkeep]
    cases List.lookup c D.cols with
    | none => rfl
    | some v => rfl
  constructor
  · cases names with
    | nil => rfl
    | cons c cs =>
      show (getCol (dropna D) c).length = 0
      rw [hg c]
      rfl
  · exact hg t

/-! Claim theorems start below; the remaining definitions of the embedding
(regressor bank, forecast route, historical store) are grouped with the
frame model above. -/

example : (mkObsFrame 9).nrows = 9 := by decide
example : (prepare_data (mkObsFrame 9) "temperature").2.1.nrows = 2 := by decide
example : (prepare_data (mkObsFrame 7) "temperature").2.1.nrows = 0 := by decide
example :
    ((prepare_data (mkObsFrame 9) "temperature").2.1.cols.map Prod.fst).length
      = 35 := by decide

/-! Claim C8: predict before any initialization. -/

/-- C8: calling the predict route while the module-global model is still
None (no initialization has run) yields the structured not-initialized
error with HTTP status 400 and carries no prediction data, for every
request payload; nothing is raised. -/
theorem predict_route_before_init (rfPredict : FittedModel → List ℚ → ℚ)
    (df : DataFrame) :
    predictRoute none rfPredict df
      = ApiResponse.fail
          "Model not initialized. Please call /api/initialize first" 400 := rfl

/-! Claim C9: append semantics of the historical store. -/

/-- C9: store_current_weather appends exactly one row to each of the two
history files per successful call and reports success; two calls with the
identical payload leave two appended rows in each file, never
deduplicated, the history growing by exactly 2. -/
theorem store_appends_rows (cur : List CurRow) (hist : List HistRow)
    (ts1 day1 ts2 day2 : ℤ) (w : WeatherPayload) :
    store_current_weather cur hist ts1 day1 w
      = (cur ++ [curRowOf ts1 w], hist ++ [histRowOf day1 w], true)
    ∧ (store_current_weather
        (store_current_weather cur hist ts1 day1 w).1
        (store_current_weather cur hist ts1 day1 w).2.1 ts2 day2 w).2.1
      = hist ++ [histRowOf day1 w, histRowOf day2 w]
    ∧ (store_current_weather
        (store_current_weather cur hist ts1 day1 w).1
        (store_current_weather cur hist ts1 day1 w).2.1 ts2 day2 w).1
      = cur ++ [curRowOf ts1 w, curRowOf ts2 w]
    ∧ (store_current_weather
        (store_current_weather cur hist ts1 day1 w).1
        (store_current_weather cur hist ts1 day1 w).2.1 ts2 day2 w).2.1.length
      = hist.length + 2 := by
  refine ⟨rfl, ?_, ?_, ?_⟩ <;> simp [store_current_weather]

/-! Claim C6: determinism of training. -/

/-- C6: training is deterministic across runs: the stored scalers and
model parameters do not depend on the ambient RNG state, because both the
80/20 split and the forest receive the fixed seed 42; two train calls on
identical frames and identical prior state agree exactly. -/
theorem train_seed_determinism (permFn : ℕ → ℕ → List ℕ) (sqrtFn : ℚ → ℚ)
    (a₁ a₂ : ℕ) (st : BankState) (df : DataFrame) :
    train permFn sqrtFn a₁ st df = train permFn sqrtFn a₂ st df := by
  suffices h : ∀ (ts : List String) (d : DataFrame) (s : BankState),
      trainLoop permFn sqrtFn a₁ ts d s = trainLoop permFn sqrtFn a₂ ts d s from
    h feature_columns df st
  intro ts
  induction ts with
  | nil => intro d s; rfl
  | cons t ts ih =>
    intro d s
    simp only [trainLoop, splitRandomState, rfRandomState, Option.getD_some]
    split
    · rfl
    · exact ih _ _

/-! Claim C7: the summary over an empty or tiny range. -/

/-- C7 counterexample: a window holding exactly one stored row makes
get_weather_analysis return a success result whose standard deviation is
NaN (pandas sample std of a single value), contradicting that a success
result never carries NaN statistics. -/
theorem analysis_singleton_nan_std_cex :
    successWithNaNStd
      (get_weather_analysis (fun q => q) [histSample] none 30 5) = true := rfl

/-- pandas std (ddof = 1) rounded to one decimal is NaN exactly on a
sample of at most one value. -/
theorem seriesStd_isNaN (sqrtFn : ℚ → ℚ) (xs : List ℚ) :
    (seriesStd sqrtFn xs).map (pyRound 1) = none ↔ xs.length ≤ 1 := by
  unfold seriesStd
  by_cases h : xs.length ≤ 1
  · simp [h]
  · simp [h]

/-- C7 (amended): over an empty filtered range the summariser returns the
explicit no-data error and never statistics; over a nonempty range it
returns a success result whose mean, min and max are numbers, and whose
std fields are NaN exactly when a single row is in range. -/
theorem analysis_result_shape (sqrtFn : ℚ → ℚ) (rows : List HistRow)
    (city : Option String) (days now : ℤ) :
    (filteredHist rows city days now = []
      ∧ get_weather_analysis sqrtFn rows city days now
          = AnalysisResult.fail "No data available for the specified period")
    ∨ (filteredHist rows city days now ≠ []
      ∧ ∃ a, get_weather_analysis sqrtFn rows city days now
            = AnalysisResult.success a
          ∧ a.data_points = (filteredHist rows city days now).length
          ∧ (a.temperature.std = none
              ↔ (filteredHist rows city days now).length = 1)
          ∧ (a.humidity.std = none
              ↔ (filteredHist rows city days now).length = 1)
          ∧ (a.wind_speed.std = none
              ↔ (filteredHist rows city days now).length = 1)
          ∧ (a.pressure.std = none
              ↔ (filteredHist rows city days now).length = 1)) := by
  by_cases hf : filteredHist rows city days now = []
  · left
    refine ⟨hf, ?_⟩
    unfold get_weather_analysis
    rw [if_pos (by rw [hf]; rfl)]
  · right
    refine ⟨hf, ?_⟩
    have hlen : (filteredHist rows city days now).length ≠ 0 :=
      fun h0 => hf (List.length_eq_zero.mp h0)
    have hpos : 1 ≤ (filteredHist rows city days now).length := by omega
    unfold get_weather_analysis
    rw [if_neg hlen]
    refine ⟨_, rfl, rfl, ?_, ?_, ?_, ?_⟩ <;>
    · show (seriesStd sqrtFn _).map (pyRound 1) = none ↔ _
      rw [seriesStd_isNaN, List.length_map]
      omega

/-! Claim C2: fewer than k+1 observations yield no feature rows. -/

/-- C2: on any observation frame with fewer than k + 1 = 8 rows whose
columns are not already lag-named, prepare_data yields zero feature rows
and an empty target series, for every target attribute. -/
theorem prepare_data_short_input_empty (df : DataFrame) (target : String)
    (hfresh : ∀ p ∈ lagPairs, df.cols.lookup (lagName p) = none)
    (hn : df.nrows < 8) :
    (prepare_data df target).2.1.nrows = 0
    ∧ (prepare_data df target).2.2 = [] := by
  have hX : (prepare_data df target).2.1
      = selectCols (dropna (addLags df))
          (((dropna (addLags df)).cols.map Prod.fst).filter isFeatureCol) := by
    simp only [prepare_data]
  have hy : (prepare_data df target).2.2
      = getCol (dropna (addLags df)) target := by
    simp only [prepare_data]
  have hkeep := keepList_addLags_short df hfresh hn
  have h := select_dropna_empty (addLags df) hkeep
    (((dropna (addLags df)).cols.map Prod.fst).filter isFeatureCol) target
  exact ⟨hX ▸ h.1, hy ▸ h.2⟩

/-- C2 witness: the 7-row observation frame. -/
theorem prepare_data_short_input_empty_witness :
    (prepare_data (mkObsFrame 7) "temperature").2.1.nrows = 0
    ∧ (prepare_data (mkObsFrame 7) "temperature").2.2 = [] :=
  prepare_data_short_input_empty (mkObsFrame 7) "temperature"
    (by decide) (by decide)

/-! Claim C3: training on fewer than k+1 observations. -/

/-- C3: train on a 7-row table does not treat the empty feature set as
cannot-train: the very first train_test_split receives zero samples and
raises ValueError, aborting train for every attribute. -/
theorem train_short_input_raises :
    (train (fun _ n => List.range n) (fun q => q) 0 ⟨[], []⟩
        (mkObsFrame 7)).2
      = Except.error "ValueError: the resulting train set will be empty" := rfl

/-! Claim C1: feature-row count on complete tables, and the dropna gap. -/

/-- C1 counterexample: an 8-row observation table with no missing value in
any tracked attribute column, where dropna nevertheless removes the one
row the lag features would keep, because the optional city column has a
missing entry there: prepare_data yields 0 feature rows, not 8 - 7 = 1. -/
theorem prepare_data_city_gap_cex :
    dfCityGap.nrows = 8
    ∧ (∀ c ∈ feature_columns, ∀ x ∈ getCol dfCityGap c, x.isna = false)
    ∧ (prepare_data dfCityGap "temperature").2.1.nrows = 0
    ∧ ¬((prepare_data dfCityGap "temperature").2.1.nrows
        = dfCityGap.nrows - 7) := by
  decide

/-- C1 (amended): on an observation table of at least k + 1 = 8 rows with
no missing value in any column, prepare_data produces for every target
exactly nrows - 7 feature rows; the feature columns are exactly the 35
lag columns, and row j of the features holds, for each (i, attribute)
pair, the attribute value i steps before source row 7 + j. -/
theorem prepare_data_complete_rows (df : DataFrame) (target : String)
    (h : ObsTable df) (_hn : 8 ≤ df.nrows) :
    (prepare_data df target).2.1.nrows = df.nrows - 7
    ∧ (prepare_data df target).2.1.cols.map Prod.fst = lagPairs.map lagName
    ∧ (prepare_data df target).2.1
        = ⟨lagPairs.map (fun p => (lagName p,
            (List.range' 7 (df.nrows - 7)).map
              (fun r => (getCol df p.2).getD (r - p.1) Cell.na)))⟩ := by
  have hX := prepare_data_X df h target
  refine ⟨?_, ?_, hX⟩
  · rw [hX]
    refine nrows_mk_map _ _ (by decide) ?_
    intro p hp
    show ((List.range' 7 (df.nrows - 7)).map
      (fun r => (getCol df p.2).getD (r - p.1) Cell.na)).length = df.nrows - 7
    rw [List.length_map, List.length_range']
  · rw [hX]
    show (lagPairs.map (fun p => (lagName p,
        (List.range' 7 (df.nrows - 7)).map
          (fun r => (getCol df p.2).getD (r - p.1) Cell.na)))).map Prod.fst
      = lagPairs.map lagName
    rw [List.map_map]
    rfl

/-- C1 witness: the 9-row complete observation frame. -/
theorem prepare_data_complete_rows_witness :
    (prepare_data (mkObsFrame 9) "temperature").2.1.nrows
        = (mkObsFrame 9).nrows - 7
    ∧ (prepare_data (mkObsFrame 9) "temperature").2.1.cols.map Prod.fst
        = lagPairs.map lagName
    ∧ (prepare_data (mkObsFrame 9) "temperature").2.1
        = ⟨lagPairs.map (fun p => (lagName p,
            (List.range' 7 ((mkObsFrame 9).nrows - 7)).map
              (fun r => (getCol (mkObsFrame 9) p.2).getD (r - p.1) Cell.na)))⟩ :=
  prepare_data_complete_rows (mkObsFrame 9) "temperature"
    ⟨by decide, by decide, by decide, by decide⟩ (by decide)

/-! Claim C4: predicting for an attribute with no stored model. -/

/-- C4: on a bank with no stored model for temperature and a complete
8-row history (one feature row, so the length guard passes), the scaler
dictionary lookup in predict_next_day raises KeyError instead of omitting
the attribute, so no structured no-prediction result is produced. -/
theorem predict_missing_model_raises :
    (predict_next_day ⟨[], []⟩ (fun _ _ => 0) (mkObsFrame 8)).2
      = Except.error "KeyError: temperature" := rfl

/-! Claim C5 and C10 share the loop analysis of predict_next_day. -/

/-- A prepare_data call on an already-mutated frame behaves exactly like
one on the original frame: the lag pass is idempotent. -/
theorem prepare_data_shift (df : DataFrame) (target : String)
    (hfresh : ∀ p ∈ lagPairs, df.cols.lookup (lagName p) = none) :
    prepare_data df target = prepare_data (addLags df) target := by
  rw [prepare_data_addLags df target hfresh]
  simp only [prepare_data]

theorem predictLoop_shift (rfPredict : FittedModel → List ℚ → ℚ)
    (st : BankState) (df : DataFrame)
    (hfresh : ∀ p ∈ lagPairs, df.cols.lookup (lagName p) = none)
    (t : String) (ts : List String) (acc : List (String × ℚ)) :
    predictLoop rfPredict st (t :: ts) df acc
      = predictLoop rfPredict st (t :: ts) (addLags df) acc := by
  simp only [predictLoop]
  rw [prepare_data_shift df t hfresh]

theorem trainLoop_shift (permFn : ℕ → ℕ → List ℕ) (sqrtFn : ℚ → ℚ)
    (ambient : ℕ) (df : DataFrame)
    (hfresh : ∀ p ∈ lagPairs, df.cols.lookup (lagName p) = none)
    (t : String) (ts : List String) (st : BankState) :
    trainLoop permFn sqrtFn ambient (t :: ts) df st
      = trainLoop permFn sqrtFn ambient (t :: ts) (addLags df) st := by
  simp only [trainLoop]
  rw [prepare_data_shift df t hfresh]

theorem prepare_data_addLags_fst (df : DataFrame) (target : String)
    (hfresh : ∀ p ∈ lagPairs, df.cols.lookup (lagName p) = none) :
    (prepare_data (addLags df) target).1 = addLags df := by
  simp only [prepare_data_addLags df target hfresh]

theorem prepare_data_addLags_X (df : DataFrame) (target : String)
    (hfresh : ∀ p ∈ lagPairs, df.cols.lookup (lagName p) = none) :
    (prepare_data (addLags df) target).2.1 = (prepare_data df target).2.1 := by
  simp only [prepare_data_addLags df target hfresh]

theorem prepare_data_addLags_y (df : DataFrame) (target : String)
    (hfresh : ∀ p ∈ lagPairs, df.cols.lookup (lagName p) = none) :
    (prepare_data (addLags df) target).2.2 = (prepare_data df target).2.2 := by
  simp only [prepare_data_addLags df target hfresh]

theorem predictLoop_frame (st : BankState)
    (rfPredict : FittedModel → List ℚ → ℚ) (df : DataFrame)
    (hfresh : ∀ p ∈ lagPairs, df.cols.lookup (lagName p) = none) :
    ∀ (ts : List String) (acc : List (String × ℚ)),
    (predictLoop rfPredict st ts (addLags df) acc).1 = addLags df := by
  intro ts
  induction ts with
  | nil => intro acc; simp only [predictLoop]
  | cons t ts ih =>
    intro acc
    simp only [predictLoop, prepare_data_addLags_fst df t hfresh,
      prepare_data_addLags_X df t hfresh]
    split
    · split
      · simp
      · split
        · simp
        · exact ih _
    · exact ih _

theorem trainLoop_frame (permFn : ℕ → ℕ → List ℕ) (sqrtFn : ℚ → ℚ)
    (ambient : ℕ) (df : DataFrame)
    (hfresh : ∀ p ∈ lagPairs, df.cols.lookup (lagName p) = none) :
    ∀ (ts : List String) (st : BankState),
    (trainLoop permFn sqrtFn ambient ts (addLags df) st).1 = addLags df := by
  intro ts
  induction ts with
  | nil => intro st; simp only [trainLoop]
  | cons t ts ih =>
    intro st
    simp only [trainLoop, prepare_data_addLags_fst df t hfresh,
      prepare_data_addLags_X df t hfresh, prepare_data_addLags_y df t hfresh]
    split
    · simp
    · exact ih _

/-- C10: prepare_data is not side-effect free: the caller frame comes back
with the k × 5 = 35 lag columns appended (the originals untouched), and
both train and predict_next_day hand their caller frame to it, so the
observation table each is given ends up lag-extended as well. -/
theorem prepare_data_mutates_frame (df : DataFrame)
    (hfresh : ∀ p ∈ lagPairs, df.cols.lookup (lagName p) = none)
    (st : BankState) (rfPredict : FittedModel → List ℚ → ℚ)
    (permFn : ℕ → ℕ → List ℕ) (sqrtFn : ℚ → ℚ) (ambient : ℕ)
    (target : String) :
    (prepare_data df target).1
        = ⟨df.cols ++ lagPairs.map
            (fun p => (lagName p, shiftCol p.1 (getCol df p.2)))⟩
    ∧ lagPairs.length = 35
    ∧ (predict_next_day st rfPredict df).1 = addLags df
    ∧ (train permFn sqrtFn ambient st df).1 = addLags df := by
  have hP1 : (prepare_data df target).1 = addLags df := by
    simp only [prepare_data]
  refine ⟨?_, by decide, ?_, ?_⟩
  · rw [hP1]
    exact addLags_struct df hfresh
  · show (predictLoop rfPredict st
      ("temperature" :: ["humidity", "wind_speed", "precipitation", "pressure"])
      df []).1 = addLags df
    rw [predictLoop_shift rfPredict st df hfresh]
    exact predictLoop_frame st rfPredict df hfresh _ _
  · show (trainLoop permFn sqrtFn ambient
      ("temperature" :: ["humidity", "wind_speed", "precipitation", "pressure"])
      df st).1 = addLags df
    rw [trainLoop_shift permFn sqrtFn ambient df hfresh]
    exact trainLoop_frame permFn sqrtFn ambient df hfresh _ _

/-- C10 witness: the 9-row observation frame with a fresh bank. -/
theorem prepare_data_mutates_frame_witness :
    (prepare_data (mkObsFrame 9) "temperature").1
        = ⟨(mkObsFrame 9).cols ++ lagPairs.map
            (fun p => (lagName p, shiftCol p.1 (getCol (mkObsFrame 9) p.2)))⟩
    ∧ lagPairs.length = 35
    ∧ (predict_next_day ⟨[], []⟩ (fun _ _ => 0) (mkObsFrame 9)).1
        = addLags (mkObsFrame 9)
    ∧ (train (fun _ n => List.range n) (fun q => q) 0 ⟨[], []⟩
        (mkObsFrame 9)).1 = addLags (mkObsFrame 9) :=
  prepare_data_mutates_frame (mkObsFrame 9) (by decide) ⟨[], []⟩
    (fun _ _ => 0) (fun _ n => List.range n) (fun q => q) 0 "temperature"

/-! Claim C5: shape of the prediction mapping in the trained state. -/

theorem predictLoop_trained (st : BankState)
    (rfPredict : FittedModel → List ℚ → ℚ) (df : DataFrame)
    (hfresh : ∀ p ∈ lagPairs, df.cols.lookup (lagName p) = none) :
    ∀ (ts : List String),
    (∀ t ∈ ts, (st.scalers.lookup t).isSome = true
      ∧ (st.models.lookup t).isSome = true) →
    ∀ (acc : List (String × ℚ)),
    (predictLoop rfPredict st ts (addLags df) acc).2
      = Except.ok (acc ++
          (if (prepare_data df "temperature").2.1.nrows = 0 then []
           else ts.map (fun t =>
             (t, pyRound 2 (rfPredict
               ((st.models.lookup t).getD ⟨0, [], []⟩)
               (ScalerParams.transform ((st.scalers.lookup t).getD ⟨[], []⟩)
                 ((prepare_data df "temperature").2.1.rowQ
                   ((prepare_data df "temperature").2.1.nrows - 1)))))))) := by
  intro ts
  induction ts with
  | nil =>
    intro _ acc
    simp only [predictLoop, List.map_nil, ite_self, List.append_nil]
  | cons t ts ih =>
    intro hts acc
    obtain ⟨hsc, hm⟩ := hts t (List.mem_cons_self t ts)
    obtain ⟨sc, hsceq⟩ := Option.isSome_iff_exists.mp hsc
    obtain ⟨m, hmeq⟩ := Option.isSome_iff_exists.mp hm
    have hXt : (prepare_data df t).2.1 = (prepare_data df "temperature").2.1 := by
      simp only [prepare_data]
    simp only [predictLoop, prepare_data_addLags_fst df t hfresh,
      prepare_data_addLags_X df t hfresh, hXt, hsceq, hmeq]
    by_cases h0 : (prepare_data df "temperature").2.1.nrows = 0
    · rw [if_neg (by omega)]
      rw [ih (fun x hx => hts x (List.mem_cons_of_mem t hx)) acc]
      simp only [if_pos h0, List.append_nil]
    · have h0' : 0 < (prepare_data df "temperature").2.1.nrows :=
        Nat.pos_of_ne_zero h0
      rw [if_pos h0']
      rw [ih (fun x hx => hts x (List.mem_cons_of_mem t hx))]
      simp only [if_neg h0, hsceq, hmeq, Option.getD_some, List.map_cons,
        List.append_assoc, List.cons_append, List.nil_append]

/-- C5: in the trained state (a stored scaler and model for every tracked
attribute), predict_next_day returns a structured mapping rather than
failing: the empty mapping when the history yields no complete feature
row, otherwise one entry per attribute whose value is the raw forest
prediction on the scaled last feature row rounded to 2 decimal places. -/
theorem predict_next_day_trained_shape (st : BankState)
    (rfPredict : FittedModel → List ℚ → ℚ) (df : DataFrame)
    (hfresh : ∀ p ∈ lagPairs, df.cols.lookup (lagName p) = none)
    (htr : ∀ t ∈ feature_columns,
      (st.scalers.lookup t).isSome = true
      ∧ (st.models.lookup t).isSome = true) :
    (predict_next_day st rfPredict df).2
      = Except.ok
          (if (prepare_data df "temperature").2.1.nrows = 0 then []
           else feature_columns.map (fun t =>
             (t, pyRound 2 (rfPredict
               ((st.models.lookup t).getD ⟨0, [], []⟩)
               (ScalerParams.transform ((st.scalers.lookup t).getD ⟨[], []⟩)
                 ((prepare_data df "temperature").2.1.rowQ
                   ((prepare_data df "temperature").2.1.nrows - 1))))))) := by
  show (predictLoop rfPredict st
    ("temperature" :: ["humidity", "wind_speed", "precipitation", "pressure"])
    df []).2 = _
  rw [predictLoop_shift rfPredict st df hfresh]
  rw [predictLoop_trained st rfPredict df hfresh
    ("temperature" :: ["humidity", "wind_speed", "precipitation", "pressure"])
    htr []]
  rw [List.nil_append]
  rfl

/-- C5 witness: the trained stub bank over the 9-row frame. -/
theorem predict_next_day_trained_shape_witness :
    (predict_next_day stubBank (fun _ _ => 0) (mkObsFrame 9)).2
      = Except.ok
          (if (prepare_data (mkObsFrame 9) "temperature").2.1.nrows = 0 then []
           else feature_columns.map (fun t =>
             (t, pyRound 2 ((fun _ _ => (0 : ℚ))
               ((stubBank.models.lookup t).getD ⟨0, [], []⟩)
               (ScalerParams.transform
                 ((stubBank.scalers.lookup t).getD ⟨[], []⟩)
                 ((prepare_data (mkObsFrame 9) "temperature").2.1.rowQ
                   ((prepare_data (mkObsFrame 9) "temperature").2.1.nrows
                     - 1))))))) :=
  predict_next_day_trained_shape stubBank (fun _ _ => 0) (mkObsFrame 9)
    (by decide) (by decide)
